import Mathlib

/-!
Verification of the dashboard orchestration layer of the
fintech-intelligence-pipeline repository.

The embedding translates the client-side JavaScript into Lean:

- the `DatabaseService` fetch wrappers in `dashboard/src/App.js`
  (`getLatestStockData`, `getHistoricalData`, `getAllRecommendations`,
  `getPerformanceMetrics`) together with their hardcoded fallback values;
- the refresh cycle `fetchDashboardData` in `App.js`;
- the sort/filter state of `RecommendationsTable` in
  `dashboard/src/components/StockOverview.js`;
- the risk and accuracy classification helpers in `StockOverview.js`
  and in the `AIAnalysis` component.

JavaScript decimal numbers are modelled as rationals, integers as `Int`,
and strings as `String`.  A network interaction is modelled by a
`FetchOutcome` value: either a transport failure (fetch rejects), or a
response carrying an HTTP status together with an optional decoded body,
where `none` stands for a body on which `response.json()` rejects.
-/

namespace Fintech

/-- Per-day OHLCV payload nested under `stockData` in the `/api/latest`
response, as consumed by the React components. -/
structure StockData where
  open_ : ℚ
  close : ℚ
  high : ℚ
  low : ℚ
  volume : ℤ
  vwap : ℚ
  transactions : ℤ
  change : ℚ
  changePercent : ℚ
deriving DecidableEq

/-- AI analysis payload nested under `aiAnalysis` in the `/api/latest`
response. -/
structure AIAnalysisData where
  sentiment : String
  riskScore : ℤ
  pricePrediction : ℚ
  recommendations : List String
  analysis : String
  model : String
deriving DecidableEq

/-- Raw decoded body of `/api/latest`: the `id` field may be absent
(`data.id || 1` in the source guards for that, and for a falsy `0`). -/
structure RawLatest where
  id : Option ℤ
  date : String
  symbol : String
  stockData : StockData
  aiAnalysis : AIAnalysisData
deriving DecidableEq

/-- Value returned by `getLatestStockData`: the raw body restructured
with a defaulted `id`, as built in `App.js`. -/
structure LatestData where
  id : ℤ
  date : String
  symbol : String
  stockData : StockData
  aiAnalysis : AIAnalysisData
deriving DecidableEq

/-- One row of the `/api/historical` response. -/
structure HistoricalBar where
  date : String
  open_ : ℚ
  close : ℚ
  high : ℚ
  low : ℚ
  volume : ℤ
  vwap : ℚ
deriving DecidableEq

/-- One row of the `/api/recommendations` response (flattened snapshot,
analysis and realized outcome). -/
structure RecommendationRecord where
  date : String
  symbol : String
  sentiment : String
  riskScore : ℤ
  pricePrediction : ℚ
  actualPrice : ℚ
  recommendations : List String
  changePercent : ℚ
  predictionAccuracy : ℚ
deriving DecidableEq

/-- The `priceMetrics` object nested in the `/api/metrics` response. -/
structure PriceMetrics where
  minPrice : ℚ
  maxPrice : ℚ
  avgPrice : ℚ
  avgVolume : ℤ
deriving DecidableEq

/-- The `/api/metrics` response body.  The sentiment distribution is an
association list from sentiment name to count, mirroring the JSON
object. -/
structure PerformanceMetricsData where
  totalDaysAnalyzed : ℤ
  totalRecommendations : ℤ
  sentimentDistribution : List (String × ℤ)
  averageRiskScore : ℚ
  priceMetrics : PriceMetrics
deriving DecidableEq

/-- Outcome of one `fetch` round trip for an endpoint whose decoded body
has type `α`.  `transportFailure` is a rejected `fetch` promise;
`response status body` is a settled response, where `body = none` means
`response.json()` rejected (malformed JSON). -/
inductive FetchOutcome (α : Type) where
  | transportFailure : FetchOutcome α
  | response (status : ℕ) (body : Option α) : FetchOutcome α
deriving DecidableEq

/-- The `response.ok` predicate of the Fetch API: status in 200..299. -/
def responseOk (status : ℕ) : Bool :=
  200 ≤ status && status ≤ 299

/-- An outcome on which the try-block of a gateway operation throws:
transport failure, non-2xx status (the source throws on `!response.ok`),
or JSON parse failure. -/
def fetchFails {α : Type} : FetchOutcome α → Bool
  | .transportFailure => true
  | .response status body => !responseOk status || body.isNone

/-- Base URL configured in `App.js` for the Railway backend. -/
def API_BASE_URL : String :=
  "https://fintech-intelligence-pipeline-production.up.railway.app"

/-- Fallback returned by `getFallbackLatestData` in `App.js`. -/
def fallbackLatestData : LatestData :=
  { id := 1
    date := "2025-09-12"
    symbol := "AAPL"
    stockData :=
      { open_ := 229.22, close := 234.07, high := 234.51, low := 229.02
        volume := 55824216, vwap := 231.5, transactions := 850000
        change := 4.85, changePercent := 2.12 }
    aiAnalysis :=
      { sentiment := "bullish", riskScore := 6, pricePrediction := 235.0
        recommendations :=
          [ "Buy AAPL due to strong quarterly earnings"
          , "AAPL is a good long-term investment opportunity"
          , "The recent price increase is a buying signal" ]
        analysis := "AAPL shows strong momentum, expect continued growth"
        model := "meta-llama/llama-3.2-3b-instruct:free" } }

/-- Fallback returned by `getFallbackHistoricalData` in `App.js`. -/
def fallbackHistoricalData : List HistoricalBar :=
  [ { date := "2025-09-10", open_ := 232.185, close := 226.79, high := 232.42
      low := 225.95, volume := 83440810, vwap := 229.6 }
  , { date := "2025-09-11", open_ := 226.875, close := 230.03, high := 230.45
      low := 226.65, volume := 50208578, vwap := 228.5 }
  , { date := "2025-09-12", open_ := 229.22, close := 234.07, high := 234.51
      low := 229.02, volume := 55824216, vwap := 231.5 } ]

/-- Fallback returned by `getFallbackRecommendations` in `App.js`. -/
def fallbackRecommendations : List RecommendationRecord :=
  [ { date := "2025-09-12", symbol := "AAPL", sentiment := "bullish"
      riskScore := 6, pricePrediction := 235.0, actualPrice := 234.07
      recommendations :=
        [ "Buy AAPL due to strong quarterly earnings"
        , "Good long-term investment" ]
      changePercent := 2.12, predictionAccuracy := 99.6 } ]

/-- Fallback returned by `getFallbackMetrics` in `App.js`. -/
def fallbackMetrics : PerformanceMetricsData :=
  { totalDaysAnalyzed := 7
    totalRecommendations := 7
    sentimentDistribution := [("bullish", 4), ("bearish", 3)]
    averageRiskScore := 6.43
    priceMetrics :=
      { minPrice := 226.79, maxPrice := 234.07, avgPrice := 230.3
        avgVolume := 63157868 } }

/-- The JavaScript expression `data.id || 1`: a missing (or falsy `0`)
id defaults to `1`. -/
def jsIdOrOne : Option ℤ → ℤ
  | none => 1
  | some v => if v = 0 then 1 else v

/-- Success-path restructuring done by `getLatestStockData` before
returning: the object literal built from the decoded body. -/
def toLatestData (d : RawLatest) : LatestData :=
  { id := jsIdOrOne d.id
    date := d.date
    symbol := d.symbol
    stockData := d.stockData
    aiAnalysis := d.aiAnalysis }

/-- Operation `DatabaseService.getLatestStockData` in `App.js`: GET `/api/latest`,
throw on `!response.ok`, decode, restructure; any caught failure
resolves to the hardcoded fallback. -/
def getLatestStockData (o : FetchOutcome RawLatest) : LatestData :=
  match o with
  | .transportFailure => fallbackLatestData
  | .response status body =>
    if responseOk status then
      match body with
      | some d => toLatestData d
      | none => fallbackLatestData
    else fallbackLatestData

/-- Default value of the `days` parameter of `getHistoricalData`. -/
def getHistoricalDataDefaultDays : ℤ := 30

/-- URL requested by `getHistoricalData`: the template string in the
source does not interpolate the `days` parameter. -/
def historicalRequestUrl (days : ℤ) : String :=
  API_BASE_URL ++ "/api/historical"

/-- Operation `DatabaseService.getHistoricalData` in `App.js`: GET
`/api/historical` (the `days` argument is never used), return the
decoded array, fallback on any failure. -/
def getHistoricalData (days : ℤ) (o : FetchOutcome (List HistoricalBar)) :
    List HistoricalBar :=
  match o with
  | .transportFailure => fallbackHistoricalData
  | .response status body =>
    if responseOk status then
      match body with
      | some d => d
      | none => fallbackHistoricalData
    else fallbackHistoricalData

/-- Operation `DatabaseService.getAllRecommendations` in `App.js`: GET
`/api/recommendations`, return the decoded array, fallback on any
failure. -/
def getAllRecommendations (o : FetchOutcome (List RecommendationRecord)) :
    List RecommendationRecord :=
  match o with
  | .transportFailure => fallbackRecommendations
  | .response status body =>
    if responseOk status then
      match body with
      | some d => d
      | none => fallbackRecommendations
    else fallbackRecommendations

/-- Operation `DatabaseService.getPerformanceMetrics` in `App.js`: GET
`/api/metrics`, return the decoded object, fallback on any failure. -/
def getPerformanceMetrics (o : FetchOutcome PerformanceMetricsData) :
    PerformanceMetricsData :=
  match o with
  | .transportFailure => fallbackMetrics
  | .response status body =>
    if responseOk status then
      match body with
      | some d => d
      | none => fallbackMetrics
    else fallbackMetrics

/-- The four backend endpoints exposed by the DataGateway. -/
inductive Endpoint where
  | latest
  | historical
  | recommendations
  | metrics
deriving DecidableEq

/-- Gateway operations awaited by the `Promise.all` inside
`fetchDashboardData`, in source order: `getLatestStockData`,
`getAllRecommendations`, `getPerformanceMetrics`. -/
def refreshCalls : List Endpoint :=
  [Endpoint.latest, Endpoint.recommendations, Endpoint.metrics]

/-- Interval of the periodic refresh timer in milliseconds:
`5 * 60 * 1000` in the `setInterval` call. -/
def refreshIntervalMs : ℕ := 5 * 60 * 1000

/-- The React state of the `App` component: the dashboard view model. -/
structure DashboardState where
  latestData : Option LatestData
  recommendations : List RecommendationRecord
  metrics : Option PerformanceMetricsData
  loading : Bool
  error : Option String
  lastUpdated : Option ℚ
deriving DecidableEq

/-- Initial `App` state from the `useState` initializers. -/
def initialDashboardState : DashboardState :=
  { latestData := none, recommendations := [], metrics := none
    loading := true, error := none, lastUpdated := none }

/-- One network environment for a refresh cycle: the outcome of each
endpoint round trip issued during the cycle. -/
structure NetworkEnv where
  latest : FetchOutcome RawLatest
  historical : FetchOutcome (List HistoricalBar)
  recommendations : FetchOutcome (List RecommendationRecord)
  metrics : FetchOutcome PerformanceMetricsData

/-- Function `fetchDashboardData` in `App.js`, as a state transformer: awaits the
three gateway calls of `refreshCalls` (each total, so the catch branch
is unreachable), then stores their results, sets `lastUpdated` to the
current time `now`, clears `error` (the `setError(null)` at cycle
start), and clears `loading` in the finally block. -/
def fetchDashboardData (env : NetworkEnv) (now : ℚ)
    (s : DashboardState) : DashboardState :=
  { latestData := some (getLatestStockData env.latest)
    recommendations := getAllRecommendations env.recommendations
    metrics := some (getPerformanceMetrics env.metrics)
    loading := false
    error := none
    lastUpdated := some now }

/-- View states distinguished by the render branches of `App`. -/
inductive PresentationState where
  | loading
  | hardError
  | degraded
  | ready
deriving DecidableEq

/-- The render branching of `App`: full-screen spinner when loading with
no data, blocking error screen when an error occurred with no data,
banner over cached data when an error occurred with data, otherwise the
normal dashboard. -/
def presentationState (s : DashboardState) : PresentationState :=
  if s.loading && s.latestData.isNone then .loading
  else if s.error.isSome && s.latestData.isNone then .hardError
  else if s.error.isSome then .degraded
  else .ready

/-- Sort/filter state of `RecommendationsTable` in `StockOverview.js`. -/
structure TableState where
  sortField : String
  sortDirection : String
  filterSentiment : String
deriving DecidableEq

/-- Initial table state from the `useState` initializers:
`date`, `desc`, `all`. -/
def initialTableState : TableState :=
  { sortField := "date", sortDirection := "desc", filterSentiment := "all" }

/-- Values offered by the sentiment filter select element. -/
def sentimentFilterOptions : List String :=
  ["all", "bullish", "bearish", "neutral"]

/-- The select onChange handler: replaces `filterSentiment` only. -/
def setFilterSentiment (v : String) (st : TableState) : TableState :=
  { st with filterSentiment := v }

/-- Handler `handleSort` in `RecommendationsTable`: clicking the current sort
field flips the direction, clicking another field selects it and resets
the direction to `desc`. -/
def handleSort (st : TableState) (field : String) : TableState :=
  if st.sortField = field then
    { st with sortDirection := if st.sortDirection = "asc" then "desc" else "asc" }
  else
    { st with sortField := field, sortDirection := "desc" }

/-- Method `String.prototype.toLowerCase` on the ASCII strings handled here:
lowercase every character. -/
def jsToLowerCase (s : String) : String :=
  String.mk (s.data.map Char.toLower)

/-- The `filteredData` computation: keep a record when the filter is
`all`, or when its lowercased sentiment equals the filter value
(the filter value itself is not lowercased in the source). -/
def filteredData (filterSentiment : String)
    (data : List RecommendationRecord) : List RecommendationRecord :=
  data.filter fun item =>
    if filterSentiment = "all" then true
    else jsToLowerCase item.sentiment = filterSentiment

/-- Reads a run of decimal digits as a number, rejecting any other
character. -/
def parseDigitsAux : List Char → ℕ → Option ℕ
  | [], acc => some acc
  | c :: rest, acc =>
    if c.isDigit then parseDigitsAux rest (acc * 10 + (c.toNat - 48))
    else none

/-- A nonempty all-digit field, or nothing. -/
def parseNatDigits : List Char → Option ℕ
  | [] => none
  | l => parseDigitsAux l 0

/-- Splits a character list on the dash character. -/
def splitDashAux : List Char → List Char → List (List Char)
  | [], cur => [cur.reverse]
  | c :: rest, cur =>
    if c = '-' then cur.reverse :: splitDashAux rest []
    else splitDashAux rest (c :: cur)

/-- Timestamp proxy for `new Date(s)` on the date-only strings stored in
the records: split on the dash and read year, month, day.  For two
distinct calendar days the JavaScript instants (UTC midnight for ISO
strings, local midnight for lenient parses) compare exactly like this
ordinal, since timezone offsets are below one day.  An unparseable
string yields `none`, standing for an invalid date (`NaN` time value),
which compares false on both sides in JavaScript. -/
def jsDateValue (s : String) : Option ℤ :=
  match (splitDashAux s.data []).map parseNatDigits with
  | [some y, some m, some d] => some ((y : ℤ) * 10000 + (m : ℤ) * 100 + (d : ℤ))
  | _ => none

/-- Lexicographic order on character lists, by code point, shorter
prefix first: the relational comparison JavaScript applies to two
strings. -/
def charListLt : List Char → List Char → Bool
  | _, [] => false
  | [], _ :: _ => true
  | a :: as, b :: bs =>
    if a < b then true
    else if b < a then false
    else charListLt as bs

/-- The JavaScript comparison `a < b` on strings. -/
def jsStringLt (a b : String) : Bool :=
  charListLt a.data b.data

/-- The strict `aVal > bVal` comparison inside the sort comparator,
per sort field: dates compare by parsed instant, sentiments by string
order, risk scores numerically; an unknown field reads `undefined` on
both sides and compares false. -/
def fieldGt (field : String) (a b : RecommendationRecord) : Bool :=
  if field = "date" then
    match jsDateValue a.date, jsDateValue b.date with
    | some x, some y => x > y
    | _, _ => false
  else if field = "sentiment" then jsStringLt b.sentiment a.sentiment
  else if field = "riskScore" then a.riskScore > b.riskScore
  else false

/-- The comparator passed to `sort` by `RecommendationsTable`:
ascending direction returns `1` when `aVal > bVal` and `-1` otherwise,
descending returns `1` when `aVal < bVal` and `-1` otherwise.  It never
returns `0`. -/
def sortCompare (field direction : String)
    (a b : RecommendationRecord) : ℤ :=
  if direction = "asc" then
    if fieldGt field a b then 1 else -1
  else
    if fieldGt field b a then 1 else -1

/-- Insertion step of `Array.prototype.sort` as engines implement it on
short arrays (binary insertion): the incoming element is placed before
the first retained element the comparator orders it strictly before. -/
def jsInsert (cmp : RecommendationRecord → RecommendationRecord → ℤ)
    (x : RecommendationRecord) :
    List RecommendationRecord → List RecommendationRecord
  | [] => [x]
  | y :: ys => if cmp x y < 0 then x :: y :: ys else y :: jsInsert cmp x ys

/-- Method `Array.prototype.sort` with a comparator, as insertion sort over the
array in order.  For a consistent comparator this agrees with every
correct sort implementation; for the inconsistent comparator above it
reproduces the binary-insertion placement of equal-key elements. -/
def jsSort (cmp : RecommendationRecord → RecommendationRecord → ℤ)
    (l : List RecommendationRecord) : List RecommendationRecord :=
  l.foldl (fun acc x => jsInsert cmp x acc) []

/-- The `sortedData` computation of `RecommendationsTable`: the visible
rows, filtered then sorted with the comparator. -/
def sortedData (st : TableState)
    (data : List RecommendationRecord) : List RecommendationRecord :=
  jsSort (sortCompare st.sortField st.sortDirection)
    (filteredData st.filterSentiment data)

/-- Label branch of `getRiskBadge` in `RecommendationsTable`. -/
def getRiskBadgeLabel (score : ℤ) : String :=
  if score > 6 then "High"
  else if score > 3 then "Medium"
  else "Low"

/-- Color branch of `getRiskBadge` in `RecommendationsTable`. -/
def getRiskBadgeColor (score : ℤ) : String :=
  if score > 6 then "bg-red-600/20 text-red-400 border-red-600/30"
  else if score > 3 then "bg-yellow-600/20 text-yellow-400 border-yellow-600/30"
  else "bg-green-600/20 text-green-400 border-green-600/30"

/-- Helper `getRiskColor` in the `AIAnalysis` component. -/
def getRiskColor (score : ℤ) : String :=
  if score ≤ 3 then "text-green-400 bg-green-600/20"
  else if score ≤ 6 then "text-yellow-400 bg-yellow-600/20"
  else "text-red-400 bg-red-600/20"

/-- Helper `getRiskLabel` in the `AIAnalysis` component. -/
def getRiskLabel (score : ℤ) : String :=
  if score ≤ 3 then "Low Risk"
  else if score ≤ 6 then "Medium Risk"
  else "High Risk"

/-- Risk banding as the specification words it: score at most 3 is Low,
4 through 6 is Medium, above 6 is High. -/
def riskBandSpec (score : ℤ) : String :=
  if score ≤ 3 then "Low"
  else if 4 ≤ score ∧ score ≤ 6 then "Medium"
  else "High"

/-- Class chosen by the accuracy cell of `RecommendationsTable`:
`predictionAccuracy >= 95` green, else `>= 90` yellow, else red. -/
def accuracyColor (a : ℚ) : String :=
  if a ≥ 95 then "text-green-400"
  else if a ≥ 90 then "text-yellow-400"
  else "text-red-400"

/-- Accuracy tiers as the specification words them: at least 95 green,
at least 90 and below 95 yellow, below 90 red. -/
def accuracyTierSpec (a : ℚ) : String :=
  if 95 ≤ a then "text-green-400"
  else if 90 ≤ a ∧ a < 95 then "text-yellow-400"
  else "text-red-400"

/-- Sentiment enum of the data model: bullish, bearish or neutral. -/
def validSentiment (s : String) : Bool :=
  s == "bullish" || s == "bearish" || s == "neutral"

/-- Risk scores are integers in the range 0 to 10. -/
def validRiskScore (r : ℤ) : Bool :=
  decide (0 ≤ r) && decide (r ≤ 10)

/-- Prediction accuracies are decimals in the range 0 to 100. -/
def validAccuracy (a : ℚ) : Bool :=
  decide (0 ≤ a) && decide (a ≤ 100)

/-- Schema check for an AI analysis payload, per the data model. -/
def validAIAnalysis (d : AIAnalysisData) : Bool :=
  validSentiment d.sentiment && validRiskScore d.riskScore

/-- Schema check for a latest-data value, per the data model. -/
def validLatestData (d : LatestData) : Bool :=
  validAIAnalysis d.aiAnalysis

/-- Schema check for a recommendation record, per the data model. -/
def validRecommendationRecord (r : RecommendationRecord) : Bool :=
  validSentiment r.sentiment && validRiskScore r.riskScore &&
    validAccuracy r.predictionAccuracy

/-- Schema check for a performance-metrics value, per the data model. -/
def validMetricsData (m : PerformanceMetricsData) : Bool :=
  decide (0 ≤ m.totalDaysAnalyzed) && decide (0 ≤ m.totalRecommendations) &&
    m.sentimentDistribution.all (fun p => validSentiment p.1 && decide (0 ≤ p.2)) &&
    decide (0 ≤ m.averageRiskScore) && decide (m.averageRiskScore ≤ 10)

/-- A concrete decoded `/api/latest` body, used to exercise the success
path of the gateway. -/
def sampleRawLatest : RawLatest :=
  { id := some 7
    date := "2025-09-12"
    symbol := "AAPL"
    stockData := fallbackLatestData.stockData
    aiAnalysis := fallbackLatestData.aiAnalysis }

/-- A concrete bullish record dated 2025-09-12. -/
def recSameDateA : RecommendationRecord :=
  { date := "2025-09-12", symbol := "AAPL", sentiment := "bullish"
    riskScore := 6, pricePrediction := 235.0, actualPrice := 234.07
    recommendations := ["Buy AAPL due to strong quarterly earnings"]
    changePercent := 2.12, predictionAccuracy := 99.6 }

/-- A concrete bearish record carrying the same date 2025-09-12. -/
def recSameDateB : RecommendationRecord :=
  { date := "2025-09-12", symbol := "AAPL", sentiment := "bearish"
    riskScore := 8, pricePrediction := 220.0, actualPrice := 226.79
    recommendations := ["Sell AAPL due to bearish sentiment"]
    changePercent := -2.32, predictionAccuracy := 95.0 }

/-- A record dated with the ISO string 2025-09-12. -/
def recSep12 : RecommendationRecord :=
  { recSameDateA with date := "2025-09-12" }

/-- A record dated with the lenient string 2025-09-1. -/
def recSep1 : RecommendationRecord :=
  { recSameDateA with date := "2025-09-1", predictionAccuracy := 98.0 }

/-- A record dated with the lenient string 2025-09-2. -/
def recSep2 : RecommendationRecord :=
  { recSameDateA with date := "2025-09-2", predictionAccuracy := 97.0 }

theorem getLatestStockData_of_fetchFails {o : FetchOutcome RawLatest}
    (h : fetchFails o = true) : getLatestStockData o = fallbackLatestData := by
  cases o with
  | transportFailure => rfl
  | response status body =>
    simp only [fetchFails, Bool.or_eq_true, Bool.not_eq_true',
      Option.isNone_iff_eq_none] at h
    unfold getLatestStockData
    rcases h with h | h
    · simp [h]
    · subst h
      cases hok : responseOk status <;> simp [hok]

theorem getHistoricalData_of_fetchFails {o : FetchOutcome (List HistoricalBar)}
    (days : ℤ) (h : fetchFails o = true) :
    getHistoricalData days o = fallbackHistoricalData := by
  cases o with
  | transportFailure => rfl
  | response status body =>
    simp only [fetchFails, Bool.or_eq_true, Bool.not_eq_true',
      Option.isNone_iff_eq_none] at h
    unfold getHistoricalData
    rcases h with h | h
    · simp [h]
    · subst h
      cases hok : responseOk status <;> simp [hok]

theorem getAllRecommendations_of_fetchFails
    {o : FetchOutcome (List RecommendationRecord)} (h : fetchFails o = true) :
    getAllRecommendations o = fallbackRecommendations := by
  cases o with
  | transportFailure => rfl
  | response status body =>
    simp only [fetchFails, Bool.or_eq_true, Bool.not_eq_true',
      Option.isNone_iff_eq_none] at h
    unfold getAllRecommendations
    rcases h with h | h
    · simp [h]
    · subst h
      cases hok : responseOk status <;> simp [hok]

theorem getPerformanceMetrics_of_fetchFails
    {o : FetchOutcome PerformanceMetricsData} (h : fetchFails o = true) :
    getPerformanceMetrics o = fallbackMetrics := by
  cases o with
  | transportFailure => rfl
  | response status body =>
    simp only [fetchFails, Bool.or_eq_true, Bool.not_eq_true',
      Option.isNone_iff_eq_none] at h
    unfold getPerformanceMetrics
    rcases h with h | h
    · simp [h]
    · subst h
      cases hok : responseOk status <;> simp [hok]

theorem mem_jsInsert (cmp : RecommendationRecord → RecommendationRecord → ℤ)
    (x a : RecommendationRecord) (l : List RecommendationRecord) :
    a ∈ jsInsert cmp x l ↔ a = x ∨ a ∈ l := by
  induction l with
  | nil => simp [jsInsert]
  | cons y ys ih =>
    unfold jsInsert
    split
    · simp
    · simp [ih]
      tauto

theorem mem_jsSort (cmp : RecommendationRecord → RecommendationRecord → ℤ)
    (l : List RecommendationRecord) (a : RecommendationRecord) :
    a ∈ jsSort cmp l ↔ a ∈ l := by
  have key : ∀ (l acc : List RecommendationRecord),
      (a ∈ l.foldl (fun acc x => jsInsert cmp x acc) acc ↔ a ∈ acc ∨ a ∈ l) := by
    intro l
    induction l with
    | nil => simp
    | cons x xs ih =>
      intro acc
      simp only [List.foldl_cons, ih, mem_jsInsert, List.mem_cons]
      tauto
  simpa using key l []

/-- C1: every DataGateway operation (getLatestStockData,
getHistoricalData, getAllRecommendations, getPerformanceMetrics)
resolves successfully in all cases: on non-2xx HTTP status, on transport
failure, or on JSON parse failure, it resolves with the hardcoded,
schema-valid fallback value specific to that endpoint, and never rejects
or exposes the failure kind to the caller (every failure kind maps to
the same endpoint-specific value). -/
theorem claim1_gateway_always_resolves_fallback
    (oL : FetchOutcome RawLatest) (oH : FetchOutcome (List HistoricalBar))
    (oR : FetchOutcome (List RecommendationRecord))
    (oM : FetchOutcome PerformanceMetricsData) (days : ℤ)
    (hL : fetchFails oL = true) (hH : fetchFails oH = true)
    (hR : fetchFails oR = true) (hM : fetchFails oM = true) :
    getLatestStockData oL = fallbackLatestData ∧
    getHistoricalData days oH = fallbackHistoricalData ∧
    getAllRecommendations oR = fallbackRecommendations ∧
    getPerformanceMetrics oM = fallbackMetrics ∧
    validLatestData fallbackLatestData = true ∧
    fallbackRecommendations.all validRecommendationRecord = true ∧
    validMetricsData fallbackMetrics = true :=
  ⟨getLatestStockData_of_fetchFails hL,
   getHistoricalData_of_fetchFails days hH,
   getAllRecommendations_of_fetchFails hR,
   getPerformanceMetrics_of_fetchFails hM,
   by decide,
   by norm_num [fallbackRecommendations, validRecommendationRecord,
     validSentiment, validRiskScore, validAccuracy],
   by norm_num [fallbackMetrics, validMetricsData, validSentiment]⟩

/-- Witness for C1: one concrete failure of each kind (transport
failure, non-2xx status, parse failure) all resolve to the fallbacks. -/
theorem claim1_gateway_always_resolves_fallback_witness :
    fetchFails (FetchOutcome.transportFailure : FetchOutcome RawLatest) = true ∧
    fetchFails (FetchOutcome.response 500 none : FetchOutcome (List HistoricalBar)) = true ∧
    fetchFails (FetchOutcome.response 404 (some fallbackRecommendations)) = true ∧
    fetchFails (FetchOutcome.response 200 none : FetchOutcome PerformanceMetricsData) = true ∧
    (getLatestStockData FetchOutcome.transportFailure = fallbackLatestData ∧
     getHistoricalData 30 (FetchOutcome.response 500 none) = fallbackHistoricalData ∧
     getAllRecommendations (FetchOutcome.response 404 (some fallbackRecommendations)) =
       fallbackRecommendations ∧
     getPerformanceMetrics (FetchOutcome.response 200 none) = fallbackMetrics ∧
     validLatestData fallbackLatestData = true ∧
     fallbackRecommendations.all validRecommendationRecord = true ∧
     validMetricsData fallbackMetrics = true) :=
  ⟨by decide, by decide, by decide, by decide,
   claim1_gateway_always_resolves_fallback FetchOutcome.transportFailure
     (FetchOutcome.response 500 none)
     (FetchOutcome.response 404 (some fallbackRecommendations))
     (FetchOutcome.response 200 none) 30
     (by decide) (by decide) (by decide) (by decide)⟩

/-- C2 counterexample: the refresh cycle does not call all four
DataGateway operations; the historical endpoint is absent from the
awaited calls. -/
theorem claim2_counterexample_historical_not_called :
    Endpoint.historical ∉ refreshCalls := by decide

/-- C2 amended: a refresh cycle awaits three of the four DataGateway
operations (latest, recommendations, metrics; getHistoricalData is not
invoked), and on completion replaces the data fields of the view model
wholesale, independent of the previous state, setting lastUpdated to
the current time; the periodic timer fires every 5 minutes. -/
theorem claim2_refresh_cycle_amended
    (env : NetworkEnv) (now : ℚ) (s1 s2 : DashboardState) :
    (fetchDashboardData env now s1).latestData = some (getLatestStockData env.latest) ∧
    (fetchDashboardData env now s1).recommendations = getAllRecommendations env.recommendations ∧
    (fetchDashboardData env now s1).metrics = some (getPerformanceMetrics env.metrics) ∧
    (fetchDashboardData env now s1).lastUpdated = some now ∧
    (fetchDashboardData env now s1).loading = false ∧
    (fetchDashboardData env now s1).error = none ∧
    fetchDashboardData env now s1 = fetchDashboardData env now s2 ∧
    Endpoint.latest ∈ refreshCalls ∧
    Endpoint.recommendations ∈ refreshCalls ∧
    Endpoint.metrics ∈ refreshCalls ∧
    refreshCalls.length = 3 ∧
    refreshIntervalMs = 300000 :=
  ⟨rfl, rfl, rfl, rfl, rfl, rfl, rfl,
   by decide, by decide, by decide, rfl, rfl⟩

/-- A network environment in which only the metrics endpoint fails
(503 with an undecodable body) while the other endpoints succeed. -/
def sampleEnvMetricsDown : NetworkEnv :=
  { latest := FetchOutcome.response 200 (some sampleRawLatest)
    historical := FetchOutcome.transportFailure
    recommendations := FetchOutcome.response 200 (some [recSameDateA])
    metrics := FetchOutcome.response 503 none }

/-- C3: if the metrics endpoint alone fails, getPerformanceMetrics
resolves (it is total) with the fixed fallback metrics object, and the
refresh cycle completes with the error state still null, reaching Ready
with latest and recommendations populated from their successful
fetches. -/
theorem claim3_metrics_failure_cycle_ready
    (env : NetworkEnv) (now : ℚ) (s : DashboardState)
    (sL sR : ℕ) (dL : RawLatest) (dR : List RecommendationRecord)
    (hM : fetchFails env.metrics = true)
    (hL : env.latest = FetchOutcome.response sL (some dL))
    (hLok : responseOk sL = true)
    (hR : env.recommendations = FetchOutcome.response sR (some dR))
    (hRok : responseOk sR = true) :
    getPerformanceMetrics env.metrics = fallbackMetrics ∧
    (fetchDashboardData env now s).metrics = some fallbackMetrics ∧
    (fetchDashboardData env now s).error = none ∧
    (fetchDashboardData env now s).latestData = some (toLatestData dL) ∧
    (fetchDashboardData env now s).recommendations = dR ∧
    presentationState (fetchDashboardData env now s) = PresentationState.ready := by
  have hm := getPerformanceMetrics_of_fetchFails hM
  refine ⟨hm, ?_, rfl, ?_, ?_, ?_⟩
  · simp [fetchDashboardData, hm]
  · simp [fetchDashboardData, getLatestStockData, hL, hLok]
  · simp [fetchDashboardData, getAllRecommendations, hR, hRok]
  · simp [presentationState, fetchDashboardData]

/-- Witness for C3 at a concrete environment where only the metrics
round trip fails. -/
theorem claim3_metrics_failure_cycle_ready_witness :
    fetchFails sampleEnvMetricsDown.metrics = true ∧
    sampleEnvMetricsDown.latest = FetchOutcome.response 200 (some sampleRawLatest) ∧
    responseOk 200 = true ∧
    sampleEnvMetricsDown.recommendations = FetchOutcome.response 200 (some [recSameDateA]) ∧
    (getPerformanceMetrics sampleEnvMetricsDown.metrics = fallbackMetrics ∧
     (fetchDashboardData sampleEnvMetricsDown 0 initialDashboardState).metrics =
       some fallbackMetrics ∧
     (fetchDashboardData sampleEnvMetricsDown 0 initialDashboardState).error = none ∧
     (fetchDashboardData sampleEnvMetricsDown 0 initialDashboardState).latestData =
       some (toLatestData sampleRawLatest) ∧
     (fetchDashboardData sampleEnvMetricsDown 0 initialDashboardState).recommendations =
       [recSameDateA] ∧
     presentationState (fetchDashboardData sampleEnvMetricsDown 0 initialDashboardState) =
       PresentationState.ready) :=
  ⟨by decide, rfl, by decide, rfl,
   claim3_metrics_failure_cycle_ready sampleEnvMetricsDown 0 initialDashboardState
     200 200 sampleRawLatest [recSameDateA] (by decide) rfl (by decide) rfl (by decide)⟩

/-- C4: for every sentiment filter value offered by the select element,
the visible rows contain exactly the records whose sentiment
case-insensitively equals the value (every record when the value is
all), and setting the filter does not alter the sort state. -/
theorem claim4_sentiment_filter_exact
    (f dir v : String) (data : List RecommendationRecord)
    (r : RecommendationRecord) (st : TableState)
    (hv : v ∈ sentimentFilterOptions) :
    (r ∈ sortedData ⟨f, dir, v⟩ data ↔
      r ∈ data ∧ (v = "all" ∨ jsToLowerCase r.sentiment = jsToLowerCase v)) ∧
    (setFilterSentiment v st).sortField = st.sortField ∧
    (setFilterSentiment v st).sortDirection = st.sortDirection := by
  refine ⟨?_, rfl, rfl⟩
  unfold sortedData
  rw [mem_jsSort]
  unfold filteredData
  rw [List.mem_filter]
  by_cases hall : v = "all"
  · subst hall
    simp
  · have hlow : jsToLowerCase v = v := by
      simp only [sentimentFilterOptions, List.mem_cons, List.not_mem_nil, or_false] at hv
      rcases hv with rfl | rfl | rfl | rfl
      · exact absurd rfl hall
      · decide
      · decide
      · decide
    simp [hall, hlow]

/-- Witness for C4 at the filter value bullish over two concrete
records. -/
theorem claim4_sentiment_filter_exact_witness :
    ("bullish" : String) ∈ sentimentFilterOptions ∧
    ((recSameDateA ∈ sortedData ⟨"date", "desc", "bullish"⟩ [recSameDateA, recSameDateB] ↔
       recSameDateA ∈ [recSameDateA, recSameDateB] ∧
         (("bullish" : String) = "all" ∨
           jsToLowerCase recSameDateA.sentiment = jsToLowerCase "bullish")) ∧
     (setFilterSentiment "bullish" initialTableState).sortField =
       initialTableState.sortField ∧
     (setFilterSentiment "bullish" initialTableState).sortDirection =
       initialTableState.sortDirection) :=
  ⟨by decide,
   claim4_sentiment_filter_exact "date" "desc" "bullish"
     [recSameDateA, recSameDateB] recSameDateA initialTableState (by decide)⟩

/-- C5 (code bug): on two records with equal sort keys the comparator
returns -1 for both argument orders and never 0, so the sort is not
stable: with the default sort (date, desc) two records both dated
2025-09-12 come out in reversed relative order. -/
theorem claim5_equal_key_order_reversed :
    sortCompare "date" "desc" recSameDateA recSameDateB = -1 ∧
    sortCompare "date" "desc" recSameDateB recSameDateA = -1 ∧
    jsDateValue recSameDateA.date = jsDateValue recSameDateB.date ∧
    sortedData initialTableState [recSameDateA, recSameDateB] =
      [recSameDateB, recSameDateA] ∧
    recSameDateA.sentiment ≠ recSameDateB.sentiment :=
  ⟨by decide, by decide, by decide, rfl, by decide⟩

/-- C6 counterexample: from the initial state (sortField date,
direction desc), toggling the sentiment field twice ends with direction
asc, not the original desc, so the double toggle does not restore the
sort direction for every field. -/
theorem claim6_counterexample_double_toggle :
    (handleSort (handleSort initialTableState "sentiment") "sentiment").sortDirection = "asc" ∧
    initialTableState.sortDirection = "desc" ∧
    ("asc" : String) ≠ "desc" := by decide

/-- C6 amended: toggling a field equal to the current sortField twice
restores the original direction; toggling a different field sets
sortField to it and resets the direction to desc, so a second toggle
then yields asc regardless of the prior direction. -/
theorem claim6_toggle_sort_amended (st : TableState) (f : String)
    (hdir : st.sortDirection = "asc" ∨ st.sortDirection = "desc") :
    (handleSort st f).sortField = f ∧
    (handleSort st f).sortDirection =
      (if st.sortField = f then
        (if st.sortDirection = "asc" then "desc" else "asc")
       else "desc") ∧
    (handleSort (handleSort st f) f).sortDirection =
      (if st.sortField = f then st.sortDirection else "asc") := by
  by_cases h : st.sortField = f <;> rcases hdir with h2 | h2 <;>
    simp [handleSort, h, h2]

/-- Witness for C6 at the initial state and its own sort field. -/
theorem claim6_toggle_sort_amended_witness :
    (initialTableState.sortDirection = "asc" ∨
      initialTableState.sortDirection = "desc") ∧
    ((handleSort initialTableState "date").sortField = "date" ∧
     (handleSort initialTableState "date").sortDirection =
       (if initialTableState.sortField = "date" then
         (if initialTableState.sortDirection = "asc" then "desc" else "asc")
        else "desc") ∧
     (handleSort (handleSort initialTableState "date") "date").sortDirection =
       (if initialTableState.sortField = "date" then
         initialTableState.sortDirection
        else "asc")) :=
  ⟨by decide, claim6_toggle_sort_amended initialTableState "date" (by decide)⟩

/-- C7: sorting by date compares parsed dates, not strings: ascending
date sort of records dated 2025-09-12, 2025-09-1, 2025-09-2 yields
chronological order 2025-09-1, 2025-09-2, 2025-09-12, although the
string 2025-09-12 sorts lexicographically before 2025-09-2. -/
theorem claim7_date_sort_chronological :
    (sortedData ⟨"date", "asc", "all"⟩ [recSep12, recSep1, recSep2]).map
        RecommendationRecord.date = ["2025-09-1", "2025-09-2", "2025-09-12"] ∧
    jsDateValue "2025-09-1" = some 20250901 ∧
    jsDateValue "2025-09-2" = some 20250902 ∧
    jsDateValue "2025-09-12" = some 20250912 ∧
    jsStringLt "2025-09-12" "2025-09-2" = true :=
  ⟨rfl, by decide, by decide, by decide, by decide⟩

/-- C8: the risk classification maps score at most 3 to Low, scores 4
through 6 to Medium, and scores above 6 to High, with 3 Low, 4 Medium,
6 Medium, 7 High, and the table badge and the AI analysis badge use the
same banding. -/
theorem claim8_risk_banding (s : ℤ) :
    getRiskBadgeLabel s = riskBandSpec s ∧
    getRiskLabel s = riskBandSpec s ++ " Risk" ∧
    getRiskBadgeLabel 3 = "Low" ∧ getRiskBadgeLabel 4 = "Medium" ∧
    getRiskBadgeLabel 6 = "Medium" ∧ getRiskBadgeLabel 7 = "High" ∧
    getRiskLabel 3 = "Low Risk" ∧ getRiskLabel 4 = "Medium Risk" ∧
    getRiskLabel 6 = "Medium Risk" ∧ getRiskLabel 7 = "High Risk" := by
  refine ⟨?_, ?_, by decide, by decide, by decide, by decide,
    by decide, by decide, by decide, by decide⟩
  · unfold getRiskBadgeLabel riskBandSpec
    split_ifs <;> first | rfl | (exfalso; omega)
  · unfold getRiskLabel riskBandSpec
    split_ifs <;> first | rfl | (exfalso; omega)

/-- C9: the accuracy tier coloring is green at 95 and above, yellow at
90 up to but excluding 95, and red below 90; in particular 94.99 is
yellow and 95.00 is green. -/
theorem claim9_accuracy_tiers (a : ℚ) :
    accuracyColor a = accuracyTierSpec a ∧
    accuracyColor 94.99 = "text-yellow-400" ∧
    accuracyColor 95 = "text-green-400" ∧
    accuracyColor 89.99 = "text-red-400" := by
  refine ⟨?_, by norm_num [accuracyColor], by norm_num [accuracyColor],
    by norm_num [accuracyColor]⟩
  rcases lt_or_le a 90 with h | h
  · have h1 : ¬(95 ≤ a) := by linarith
    have h2 : ¬(90 ≤ a) := by linarith
    have h3 : ¬(90 ≤ a ∧ a < 95) := fun hc => h2 hc.1
    simp [accuracyColor, accuracyTierSpec, ge_iff_le, h1, h2, h3]
  · rcases lt_or_le a 95 with h5 | h5
    · have h1 : ¬(95 ≤ a) := by linarith
      simp [accuracyColor, accuracyTierSpec, ge_iff_le, h, h5, h1]
    · simp [accuracyColor, accuracyTierSpec, ge_iff_le, h5, h]

/-- C10: getHistoricalData issues the identical request for every value
of the days argument (the path /api/historical carries no days query
parameter) and returns the same result, so the days parameter (default
30) has no effect on the operation. -/
theorem claim10_days_parameter_unused
    (d1 d2 : ℤ) (o : FetchOutcome (List HistoricalBar)) :
    historicalRequestUrl d1 = historicalRequestUrl d2 ∧
    historicalRequestUrl d1 = API_BASE_URL ++ "/api/historical" ∧
    getHistoricalData d1 o = getHistoricalData d2 o ∧
    getHistoricalDataDefaultDays = 30 :=
  ⟨rfl, rfl, rfl, rfl⟩

end Fintech
